import Mathlib

attribute [local semireducible] Rat.sub Rat.add Rat.mul Rat.inv

/-! Shallow embedding of the buzzline-03 streaming consumers.

The two stateful programs are `consumers/csv_consumer_nickelias.py`
(temperature stream: rolling window, stall detection, drop/threshold
alerts) and `consumers/json_consumer_nickelias.py` (chat stream: author
counters, last-seen timestamps, frequency/volume/keyword alerts).

Payloads are modelled after the result of `json.loads`: either a decode
failure (`Option.none`), or a top-level scalar, array, or flat object
whose field values are JSON scalars (null, bool, number, string).  Nested
container field values never occur in the producers of this repository
and no claim depends on them.  Python numbers are modelled as rationals;
every comparison a claim depends on is robust to the float/rational gap.
A Python exception raised mid-processing is modelled as `Option.none`
from the raising sub-computation; state mutations that already happened
before the raise are kept, matching Python's global/by-reference updates.
-/

/-- A JSON scalar value, as a Python object after `json.loads`. -/
inductive JVal where
  | null : JVal
  | bool (b : Bool) : JVal
  | num (q : ℚ) : JVal
  | str (s : String) : JVal
deriving DecidableEq, Repr

/-- A parsed top-level JSON document: scalar, array, or flat object. -/
inductive JTop where
  | scalar (v : JVal) : JTop
  | list : JTop
  | obj (fields : List (String × JVal)) : JTop
deriving DecidableEq, Repr

/-- Association-list lookup, modelling Python `dict` access. -/
def alookup {κ α : Type} [DecidableEq κ] : List (κ × α) → κ → Option α
  | [], _ => none
  | (k', v) :: r, k => if k = k' then some v else alookup r k

/-- Python `dict[k] = v`: overwrite the key if present, else append. -/
def setKey {κ α : Type} [DecidableEq κ] : List (κ × α) → κ → α → List (κ × α)
  | [], k, v => [(k, v)]
  | (k', v') :: r, k, v => if k = k' then (k, v) :: r else (k', v') :: setKey r k v

/-- Python `defaultdict(int)`: `d[k] += 1` (missing key counts as 0). -/
def bumpCount {κ : Type} [DecidableEq κ] : List (κ × Nat) → κ → List (κ × Nat)
  | [], k => [(k, 1)]
  | (k', n) :: r, k => if k = k' then (k', n + 1) :: r else (k', n) :: bumpCount r k

/-- The count stored for a key (0 when absent), as `defaultdict(int)` reads it. -/
def countOf {κ : Type} [DecidableEq κ] (m : List (κ × Nat)) (k : κ) : Nat :=
  (alookup m k).getD 0

/-- Python numeric coercion for comparisons: `bool` is an `int` subtype. -/
def asNum : JVal → Option ℚ
  | .num q => some q
  | .bool b => some (if b then 1 else 0)
  | _ => none

/-- Python `a < b` on JSON scalars; `none` models a raised `TypeError`. -/
def pyLt (a b : JVal) : Option Bool :=
  match a, b with
  | .str x, .str y => some (decide (x < y))
  | _, _ =>
    match asNum a, asNum b with
    | some x, some y => some (decide (x < y))
    | _, _ => none

/-- Python `v >= q` against a numeric literal; `none` models `TypeError`. -/
def pyGeNum (v : JVal) (q : ℚ) : Option Bool :=
  (asNum v).map fun x => decide (q ≤ x)

/-- The fold inside Python `max`: keep the larger of accumulator and next. -/
def pyMaxFold : JVal → List JVal → Option JVal
  | cur, [] => some cur
  | cur, x :: r => do
    let b ← pyLt cur x
    pyMaxFold (if b then x else cur) r

/-- Python `max(xs)`; `none` models `ValueError` (empty) or `TypeError`. -/
def pyMax : List JVal → Option JVal
  | [] => none
  | x :: r => pyMaxFold x r

/-- The fold inside Python `min`. -/
def pyMinFold : JVal → List JVal → Option JVal
  | cur, [] => some cur
  | cur, x :: r => do
    let b ← pyLt x cur
    pyMinFold (if b then x else cur) r

/-- Python `min(xs)`. -/
def pyMin : List JVal → Option JVal
  | [] => none
  | x :: r => pyMinFold x r

/-- Python `data.get(k)` combined with the `is None` test used at the call
site: yields `none` both when the key is absent and when it maps to JSON
null, since both make the Python value `None`. -/
def pyGet (fields : List (String × JVal)) (k : String) : Option JVal :=
  match alookup fields k with
  | some JVal.null => none
  | some v => some v
  | none => none

/-- Python `d.get(k, default)`: an explicit null value is returned as-is. -/
def jget (fields : List (String × JVal)) (k : String) (d : JVal) : JVal :=
  (alookup fields k).getD d

/-- Lower-casing, modelling Python `str.lower` on ASCII text. -/
def pyLower (s : String) : String :=
  String.mk (s.data.map Char.toLower)

/-- Substring test on character lists, for Python `needle in hay`. -/
def strContainsAux (needle : List Char) : List Char → Bool
  | [] => needle.isEmpty
  | c :: r => List.isPrefixOf needle (c :: r) || strContainsAux needle r

/-- Python `needle in hay` on strings (substring containment). -/
def strContains (hay needle : String) : Bool :=
  strContainsAux needle.data hay.data

namespace CsvConsumer

/-- One observable output of the temperature consumer: an alert or an
error log.  `jsonError` is the `JSONDecodeError` drop report,
`invalidFormat` the missing-field report, `procError` the generic
`except Exception` report. -/
inductive CsvOut where
  | jsonError : CsvOut
  | invalidFormat : CsvOut
  | procError : CsvOut
  | stall (timestamp : JVal) : CsvOut
  | drop (timestamp : JVal) : CsvOut
  | overcooked (timestamp : JVal) : CsvOut
  | ready (timestamp : JVal) : CsvOut
deriving DecidableEq, Repr

/-- `deque(maxlen=cap).append x`: append right, evict left past capacity. -/
def pushMax (cap : Nat) (w : List JVal) (x : JVal) : List JVal :=
  let w' := w ++ [x]
  if cap < w'.length then w'.drop (w'.length - cap) else w'

/-- The consecutive-rows loop of `check_temperature_alerts`: a drop alert
for each row whose temperature is strictly below the previous row's.
`none` models a comparison `TypeError`, which discards all alerts. -/
def drop_alerts : List (JVal × JVal) → Option (List CsvOut)
  | [] => some []
  | [_] => some []
  | (_, t0) :: (ts1, t1) :: rest => do
    let b ← pyLt t1 t0
    let tail ← drop_alerts ((ts1, t1) :: rest)
    some ((if b then [CsvOut.drop ts1] else []) ++ tail)

/-- The per-row threshold loop of `check_temperature_alerts`:
`if temperature >= 150 ... elif temperature >= 140 ...`. -/
def threshold_alerts : List (JVal × JVal) → Option (List CsvOut)
  | [] => some []
  | (ts, t) :: rest => do
    let hi ← pyGeNum t 150
    let head ←
      if hi then some [CsvOut.overcooked ts]
      else do
        let mid ← pyGeNum t 140
        some (if mid then [CsvOut.ready ts] else [])
    let tail ← threshold_alerts rest
    some (head ++ tail)

/-- `check_temperature_alerts(df)`: collect drop alerts over consecutive
rows, then threshold alerts per row; all are logged only after both
loops finish, so a raised comparison discards the collected alerts. -/
def check_temperature_alerts (df : List (JVal × JVal)) : Option (List CsvOut) := do
  let d ← drop_alerts df
  let t ← threshold_alerts df
  some (d ++ t)

/-- `detect_stall(rolling_window)`: returns `false` while the window is
shorter than the configured size, else compares `max - min` with the
stall threshold.  `none` models a raised `TypeError`/`ValueError`. -/
def detect_stall (w : List JVal) (window_size : Nat) (threshold : ℚ) : Option Bool :=
  if w.length < window_size then some false
  else do
    let mx ← pyMax w
    let mn ← pyMin w
    let x ← asNum mx
    let y ← asNum mn
    some (decide (x - y ≤ threshold))

/-- `process_message(message, rolling_window, window_size, df)` of the
temperature consumer.  Returns the rolling window as the caller sees it
(the deque is mutated in place), the DataFrame as the caller sees it
(`df.vstack` returns a new frame bound only to a local name, so the
caller's `df` is returned unchanged), and the emitted outputs in order.
A raised exception after the window push keeps the push. -/
def process_message (msg : Option JTop) (w : List JVal) (window_size : Nat)
    (threshold : ℚ) (df : List (JVal × JVal)) :
    List JVal × List (JVal × JVal) × List CsvOut :=
  match msg with
  | none => (w, df, [CsvOut.jsonError])
  | some (.scalar _) => (w, df, [CsvOut.procError])
  | some .list => (w, df, [CsvOut.procError])
  | some (.obj fields) =>
    match pyGet fields "temperature", pyGet fields "timestamp" with
    | some temp, some ts =>
      let w' := pushMax window_size w temp
      let dfLocal := df ++ [(ts, temp)]
      match detect_stall w' window_size threshold with
      | none => (w', df, [CsvOut.procError])
      | some st =>
        let stallOut := if st then [CsvOut.stall ts] else []
        match check_temperature_alerts dfLocal with
        | none => (w', df, stallOut ++ [CsvOut.procError])
        | some alerts => (w', df, stallOut ++ alerts)
    | _, _ => (w, df, [CsvOut.invalidFormat])

/-- The consumer's polling loop: thread window and DataFrame through
`process_message`, collecting all outputs in order. -/
def csv_run (window_size : Nat) (threshold : ℚ) :
    List (Option JTop) → List JVal → List (JVal × JVal) → List CsvOut
  | [], _, _ => []
  | m :: r, w, df =>
    let st := process_message m w window_size threshold df
    st.2.2 ++ csv_run window_size threshold r st.1 st.2.1

/-- The polling loop's final state (window, DataFrame). -/
def csv_fold (window_size : Nat) (threshold : ℚ) :
    List (Option JTop) → List JVal × List (JVal × JVal) → List JVal × List (JVal × JVal)
  | [], s => s
  | m :: r, (w, df) =>
    let st := process_message m w window_size threshold df
    csv_fold window_size threshold r (st.1, st.2.1)

end CsvConsumer

namespace JsonConsumer

/-- `MESSAGE_THRESHOLD = 100`. -/
def MESSAGE_THRESHOLD : Nat := 100

/-- `FREQUENT_TIME_FRAME = 10` seconds. -/
def FREQUENT_TIME_FRAME : ℚ := 10

/-- The chat consumer's module-level state: `author_counts` and
`last_message_time`, both keyed by the extracted author value. -/
structure JState where
  author_counts : List (JVal × Nat)
  last_message_time : List (JVal × ℚ)
deriving DecidableEq, Repr

/-- One observable output of the chat consumer. `invalidJson` is the
`JSONDecodeError` drop report, `notDict` the non-dictionary report,
`procError` the generic `except Exception` report. -/
inductive JOut where
  | invalidJson : JOut
  | notDict : JOut
  | procError : JOut
  | frequent (author : JVal) : JOut
  | important (author : JVal) : JOut
  | volume (author : JVal) (count : Nat) : JOut
  | keyword (author : JVal) (content : String) : JOut
deriving DecidableEq, Repr

/-- `process_message(message)` of the chat consumer.  `now` is the value
of `time.time()` during this call (the code uses the wall clock, not a
timestamp field of the event).  Warnings are emitted in program order;
an `AttributeError` from `.lower()` on a non-string author or content
aborts the remaining checks but keeps the state updates already made. -/
def process_message (s : JState) (now : ℚ) (payload : Option JTop) :
    JState × List JOut :=
  match payload with
  | none => (s, [JOut.invalidJson])
  | some (.scalar _) => (s, [JOut.notDict])
  | some .list => (s, [JOut.notDict])
  | some (.obj fields) =>
    let author := jget fields "author" (JVal.str "unknown")
    let content := jget fields "message" (JVal.str "")
    let counts' := bumpCount s.author_counts author
    let last := (alookup s.last_message_time author).getD 0
    let freqOut := if now - last ≤ FREQUENT_TIME_FRAME then [JOut.frequent author] else []
    let s' : JState := ⟨counts', setKey s.last_message_time author now⟩
    match author with
    | .str a =>
      let impOut := if pyLower a = "alice" then [JOut.important author] else []
      let cnt := countOf counts' author
      let volOut := if MESSAGE_THRESHOLD ≤ cnt then [JOut.volume author cnt] else []
      match content with
      | .str c =>
        let kwOut :=
          if strContains (pyLower c) "urgent" || strContains (pyLower c) "error"
          then [JOut.keyword author c] else []
        (s', freqOut ++ impOut ++ volOut ++ kwOut)
      | _ => (s', freqOut ++ impOut ++ volOut ++ [JOut.procError])
    | _ => (s', freqOut ++ [JOut.procError])

/-- The consumer's polling loop: `(now, payload)` pairs in arrival order. -/
def json_run : List (ℚ × Option JTop) → JState → JState × List JOut
  | [], s => (s, [])
  | (now, p) :: r, s =>
    let st := process_message s now p
    let rest := json_run r st.1
    (rest.1, st.2 ++ rest.2)

end JsonConsumer

/-- Maximum of a nonempty list of rationals (0 for the empty list; only
used on nonempty windows). -/
def qmaxD : List ℚ → ℚ
  | [] => 0
  | x :: r => r.foldl max x

/-- Minimum of a nonempty list of rationals (0 for the empty list; only
used on nonempty windows). -/
def qminD : List ℚ → ℚ
  | [] => 0
  | x :: r => r.foldl min x

/-- The three-reading drop sequence of the spec, as raw payloads. -/
def dropSequence : List (Option JTop) :=
  [some (.obj [("timestamp", .str "t1"), ("temperature", .num 70)]),
   some (.obj [("timestamp", .str "t2"), ("temperature", .num 65)]),
   some (.obj [("timestamp", .str "t3"), ("temperature", .num 80)])]

/-! ## Helper lemmas -/

/-- Bumping a key's count makes its stored count one larger. -/
theorem alookup_bumpCount_self {κ : Type} [DecidableEq κ] (m : List (κ × Nat)) (k : κ) :
    alookup (bumpCount m k) k = some (countOf m k + 1) := by
  induction m with
  | nil => simp [bumpCount, alookup, countOf]
  | cons p r ih =>
    obtain ⟨k', n⟩ := p
    by_cases h : k = k'
    · subst h
      simp [bumpCount, alookup, countOf]
    · simp [bumpCount, alookup, h, ih, countOf]

/-- Python `max` over a list of numbers is the rational fold of `max`. -/
theorem pyMaxFold_num (qs : List ℚ) : ∀ c : ℚ,
    pyMaxFold (JVal.num c) (qs.map JVal.num) = some (JVal.num (qs.foldl max c)) := by
  induction qs with
  | nil => intro c; rfl
  | cons q r ih =>
    intro c
    have hmax : (if decide (c < q) = true then JVal.num q else JVal.num c) =
        JVal.num (max c q) := by
      rcases le_or_lt q c with h | h
      · simp [not_lt.mpr h, max_eq_left h]
      · simp [h, max_eq_right h.le]
    simp only [List.map_cons, pyMaxFold, pyLt, asNum, List.foldl_cons, Option.bind_eq_bind,
      Option.some_bind, hmax, ih]

/-- Python `min` over a list of numbers is the rational fold of `min`. -/
theorem pyMinFold_num (qs : List ℚ) : ∀ c : ℚ,
    pyMinFold (JVal.num c) (qs.map JVal.num) = some (JVal.num (qs.foldl min c)) := by
  induction qs with
  | nil => intro c; rfl
  | cons q r ih =>
    intro c
    have hmin : (if decide (q < c) = true then JVal.num q else JVal.num c) =
        JVal.num (min c q) := by
      rcases le_or_lt c q with h | h
      · simp [not_lt.mpr h, min_eq_left h]
      · simp [h, min_eq_right h.le]
    simp only [List.map_cons, pyMinFold, pyLt, asNum, List.foldl_cons, Option.bind_eq_bind,
      Option.some_bind, hmin, ih]

/-- A bounded push never grows the window past the capacity. -/
theorem pushMax_length_le (cap : Nat) (w : List JVal) (x : JVal) (hw : w.length ≤ cap) :
    (CsvConsumer.pushMax cap w x).length ≤ cap := by
  simp only [CsvConsumer.pushMax, List.length_append, List.length_cons, List.length_nil]
  split_ifs with h
  · simp
    omega
  · simp
    omega

/-- Folding bounded pushes keeps exactly the newest `cap` of all values
seen, expressed as a suffix of the accumulated sequence. -/
theorem foldl_pushMax_eq (cap : Nat) : ∀ (xs w : List JVal), w.length ≤ cap →
    List.foldl (CsvConsumer.pushMax cap) w xs =
      (w ++ xs).drop (w.length + xs.length - cap) := by
  intro xs
  induction xs with
  | nil => intro w hw; simp [Nat.sub_eq_zero_of_le hw]
  | cons x r ih =>
    intro w hw
    rw [List.foldl_cons, ih _ (pushMax_length_le cap w x hw)]
    rcases Nat.lt_or_ge w.length cap with hlt | hge
    · have hpush : CsvConsumer.pushMax cap w x = w ++ [x] := by
        simp only [CsvConsumer.pushMax, List.length_append, List.length_cons,
          List.length_nil]
        rw [if_neg (by omega)]
      rw [hpush]
      simp [List.append_assoc]
      congr 1
      omega
    · have hceq : w.length = cap := le_antisymm hw hge
      have hpush : CsvConsumer.pushMax cap w x = (w ++ [x]).drop 1 := by
        simp only [CsvConsumer.pushMax, List.length_append, List.length_cons,
          List.length_nil]
        rw [if_pos (by omega)]
        congr 1
        omega
      rw [hpush]
      cases w with
      | nil =>
        have : cap = 0 := by simpa using hceq.symm
        subst this
        simp
      | cons y w' =>
        have h1 : ((y :: w') ++ [x]).drop 1 = w' ++ [x] := by simp
        rw [h1]
        have hlen1 : (w' ++ [x]).length = cap := by
          simp at hceq ⊢
          omega
        rw [hlen1, hceq]
        have h2 : (w' ++ [x]) ++ r = w' ++ x :: r := by simp
        rw [h2]
        have h3 : (y :: w') ++ x :: r = y :: (w' ++ x :: r) := by simp
        rw [h3]
        have h4 : cap + r.length - cap = r.length := by omega
        rw [h4]
        simp only [List.length_cons]
        have h5 : cap + (r.length + 1) - cap = r.length + 1 := by omega
        rw [h5, List.drop_succ_cons]

/-- Evaluation of the chat consumer on a well-shaped two-field payload:
the state updates and the four rule outputs, in program order. -/
theorem jsonProcess_out (s : JsonConsumer.JState) (now : ℚ) (a m : String) :
    JsonConsumer.process_message s now
        (some (.obj [("author", JVal.str a), ("message", JVal.str m)])) =
      (⟨bumpCount s.author_counts (JVal.str a),
        setKey s.last_message_time (JVal.str a) now⟩,
       (if now - (alookup s.last_message_time (JVal.str a)).getD 0 ≤
            JsonConsumer.FREQUENT_TIME_FRAME
        then [JsonConsumer.JOut.frequent (JVal.str a)] else []) ++
       (if pyLower a = "alice" then [JsonConsumer.JOut.important (JVal.str a)] else []) ++
       (if JsonConsumer.MESSAGE_THRESHOLD ≤
            countOf (bumpCount s.author_counts (JVal.str a)) (JVal.str a)
        then [JsonConsumer.JOut.volume (JVal.str a)
               (countOf (bumpCount s.author_counts (JVal.str a)) (JVal.str a))] else []) ++
       (if strContains (pyLower m) "urgent" || strContains (pyLower m) "error"
        then [JsonConsumer.JOut.keyword (JVal.str a) m] else [])) := by
  simp [JsonConsumer.process_message, jget, alookup]

/-- The temperature consumer always hands back the DataFrame it was
given: `df.vstack` is bound only to a local name. -/
theorem process_message_df_unchanged (m : Option JTop) (w : List JVal) (ws : Nat)
    (thr : ℚ) (df : List (JVal × JVal)) :
    (CsvConsumer.process_message m w ws thr df).2.1 = df := by
  rcases m with _ | j
  · rfl
  rcases j with v | _ | fields
  · rfl
  · rfl
  · simp only [CsvConsumer.process_message]
    rcases pyGet fields "temperature" with _ | t <;>
      rcases pyGet fields "timestamp" with _ | ts <;> simp <;>
      rcases CsvConsumer.detect_stall (CsvConsumer.pushMax ws w t) ws thr with _ | st <;>
      simp <;>
      rcases CsvConsumer.check_temperature_alerts (df ++ [(ts, t)]) with _ | alerts <;>
      simp

/-- Over any message sequence, the polling loop's DataFrame component
never changes. -/
theorem csv_fold_df_unchanged (ws : Nat) (thr : ℚ) : ∀ (msgs : List (Option JTop))
    (w : List JVal) (df : List (JVal × JVal)),
    (CsvConsumer.csv_fold ws thr msgs (w, df)).2 = df := by
  intro msgs
  induction msgs with
  | nil => intro w df; rfl
  | cons m r ih =>
    intro w df
    simp only [CsvConsumer.csv_fold]
    rw [ih, process_message_df_unchanged]

/-! ## Claim theorems -/

/-- C1 (code bug): processing the sequence 70, 65, 80 emits no output at
all — in particular zero TemperatureDrop alerts, not one.  The caller's
DataFrame never accumulates (`df.vstack` is bound to a local name only),
so the consecutive-rows loop of `check_temperature_alerts` always sees a
single row.  The second conjunct shows the drop logic itself does fire
exactly once on the second reading when given the accumulated three-row
history the code's own comments intend it to scan. -/
theorem c1_temperature_drop_never_fires :
    CsvConsumer.csv_run 5 (1/5) dropSequence [] [] = [] ∧
    CsvConsumer.check_temperature_alerts
      [(.str "t1", .num 70), (.str "t2", .num 65), (.str "t3", .num 80)] =
      some [CsvConsumer.CsvOut.drop (.str "t2")] := by
  constructor
  · rfl
  · rfl

/-- C2 (counterexample): the chat consumer accepts the payload `{}` —
every required field absent — and still updates per-key state, recording
one message for author `"unknown"`; the original claim says such a
payload is rejected before any state update. -/
theorem c2_counterexample_empty_object_accepted :
    JsonConsumer.process_message ⟨[], []⟩ 100 (some (.obj [])) =
      (⟨[(JVal.str "unknown", 1)], [(JVal.str "unknown", 100)]⟩, []) := by
  decide

/-- C2 (amended): the temperature consumer rejects a payload before any
state update when `temperature` or `timestamp` is absent or null (no
type check is performed); the chat consumer accepts any JSON object,
substituting defaults for absent `author`/`message`, so a missing
required key does not cause rejection there. -/
theorem c2_amended_field_checks :
    (∀ (w : List JVal) (ws : Nat) (thr : ℚ) (df : List (JVal × JVal))
       (fields : List (String × JVal)), pyGet fields "temperature" = none →
       CsvConsumer.process_message (some (.obj fields)) w ws thr df =
         (w, df, [CsvConsumer.CsvOut.invalidFormat])) ∧
    (∀ (w : List JVal) (ws : Nat) (thr : ℚ) (df : List (JVal × JVal))
       (fields : List (String × JVal)), pyGet fields "timestamp" = none →
       CsvConsumer.process_message (some (.obj fields)) w ws thr df =
         (w, df, [CsvConsumer.CsvOut.invalidFormat])) ∧
    (∀ (s : JsonConsumer.JState) (now : ℚ),
       (JsonConsumer.process_message s now (some (.obj []))).1.author_counts =
         bumpCount s.author_counts (JVal.str "unknown")) := by
  refine ⟨?_, ?_, ?_⟩
  · intro w ws thr df fields h
    simp [CsvConsumer.process_message, h]
  · intro w ws thr df fields h
    rcases hT : pyGet fields "temperature" with _ | t <;>
      simp [CsvConsumer.process_message, h, hT]
  · intro s now
    rfl

/-- C2 (witness): concrete instances of the amended claim — a payload
missing `temperature`, one missing `timestamp`, and the accepted `{}`. -/
theorem c2_amended_field_checks_witness :
    CsvConsumer.process_message (some (.obj [("timestamp", JVal.str "t")])) [] 5 (1/5) [] =
      ([], [], [CsvConsumer.CsvOut.invalidFormat]) ∧
    CsvConsumer.process_message (some (.obj [("temperature", JVal.num 70)])) [] 5 (1/5) [] =
      ([], [], [CsvConsumer.CsvOut.invalidFormat]) ∧
    (JsonConsumer.process_message ⟨[], []⟩ 100 (some (.obj []))).1.author_counts =
      bumpCount ([] : List (JVal × Nat)) (JVal.str "unknown") :=
  ⟨c2_amended_field_checks.1 [] 5 (1/5) [] _ (by decide),
   c2_amended_field_checks.2.1 [] 5 (1/5) [] _ (by decide),
   c2_amended_field_checks.2.2 ⟨[], []⟩ 100⟩

/-- C3: OverTemp and ReadyThreshold are mutually exclusive, by the
`if/elif` in `check_temperature_alerts`: a reading at or above 150
yields the overcooked alert only, a reading in [140, 150) yields the
ready alert only, and a reading below 140 yields neither. -/
theorem c3_threshold_mutual_exclusion (ts : JVal) (t : ℚ) :
    (150 ≤ t → CsvConsumer.check_temperature_alerts [(ts, JVal.num t)] =
      some [CsvConsumer.CsvOut.overcooked ts]) ∧
    (140 ≤ t → t < 150 → CsvConsumer.check_temperature_alerts [(ts, JVal.num t)] =
      some [CsvConsumer.CsvOut.ready ts]) ∧
    (t < 140 → CsvConsumer.check_temperature_alerts [(ts, JVal.num t)] = some []) := by
  refine ⟨fun h => ?_, fun h1 h2 => ?_, fun h => ?_⟩ <;>
    simp [CsvConsumer.check_temperature_alerts, CsvConsumer.drop_alerts,
      CsvConsumer.threshold_alerts, pyGeNum, asNum, Option.bind] <;>
    split_ifs <;> simp_all <;> linarith

/-- C3 (witness): readings of exactly 150, of 145, and of 139.9. -/
theorem c3_threshold_witness :
    CsvConsumer.check_temperature_alerts [(JVal.str "t", JVal.num 150)] =
      some [CsvConsumer.CsvOut.overcooked (JVal.str "t")] ∧
    CsvConsumer.check_temperature_alerts [(JVal.str "t", JVal.num 145)] =
      some [CsvConsumer.CsvOut.ready (JVal.str "t")] ∧
    CsvConsumer.check_temperature_alerts [(JVal.str "t", JVal.num (1399/10))] =
      some [] :=
  ⟨(c3_threshold_mutual_exclusion (JVal.str "t") 150).1 (by norm_num),
   (c3_threshold_mutual_exclusion (JVal.str "t") 145).2.1 (by norm_num) (by norm_num),
   (c3_threshold_mutual_exclusion (JVal.str "t") (1399/10)).2.2 (by norm_num)⟩

/-- C4: on a window of numeric readings whose length equals the
configured size, `detect_stall` reports a stall exactly when
`max - min ≤ threshold`. -/
theorem c4_full_window_stall_iff (qs : List ℚ) (ws : Nat) (thr : ℚ)
    (hlen : qs.length = ws) (hpos : 0 < ws) :
    CsvConsumer.detect_stall (qs.map JVal.num) ws thr =
      some (decide (qmaxD qs - qminD qs ≤ thr)) ∧
    (CsvConsumer.detect_stall (qs.map JVal.num) ws thr = some true ↔
      qmaxD qs - qminD qs ≤ thr) := by
  have hmain : CsvConsumer.detect_stall (qs.map JVal.num) ws thr =
      some (decide (qmaxD qs - qminD qs ≤ thr)) := by
    cases qs with
    | nil => simp at hlen; omega
    | cons x r =>
      simp only [CsvConsumer.detect_stall, List.length_map, List.length_cons, hlen,
        lt_irrefl, if_false, List.map_cons, pyMax, pyMin, pyMaxFold_num, pyMinFold_num,
        Option.bind_eq_bind, Option.some_bind, asNum, qmaxD, qminD]
      rw [if_neg (by simp at hlen; omega)]
  exact ⟨hmain, by rw [hmain]; simp⟩

/-- C4 (witness): the spec's full window `[100.0, 100.1, 100.05, 100.0,
100.1]` is stalled at threshold 0.2; replacing the last value with 101.0
is not. -/
theorem c4_stall_witness :
    CsvConsumer.detect_stall
      [JVal.num 100, JVal.num (1001/10), JVal.num (2001/20), JVal.num 100,
       JVal.num (1001/10)] 5 (1/5) = some true ∧
    CsvConsumer.detect_stall
      [JVal.num 100, JVal.num (1001/10), JVal.num (2001/20), JVal.num 100,
       JVal.num 101] 5 (1/5) = some false := by
  constructor
  · rw [show ([JVal.num 100, JVal.num (1001/10), JVal.num (2001/20), JVal.num 100,
        JVal.num (1001/10)] : List JVal) =
        List.map JVal.num [100, 1001/10, 2001/20, 100, 1001/10] by rfl,
      (c4_full_window_stall_iff [100, 1001/10, 2001/20, 100, 1001/10] 5 (1/5) rfl
        (by norm_num)).1]
    norm_num [qmaxD, qminD]
  · rw [show ([JVal.num 100, JVal.num (1001/10), JVal.num (2001/20), JVal.num 100,
        JVal.num 101] : List JVal) =
        List.map JVal.num [100, 1001/10, 2001/20, 100, 101] by rfl,
      (c4_full_window_stall_iff [100, 1001/10, 2001/20, 100, 101] 5 (1/5) rfl
        (by norm_num)).1]
    norm_num [qmaxD, qminD]

/-- C5 (counterexample): a one-element window under capacity 5 makes
`detect_stall` return `some false` — the very same boolean verdict a
full non-stalled window yields — not an empty Option; the original
claim says insufficient data yields no verdict at all, distinct from a
false/negative result. -/
theorem c5_counterexample_underfull_returns_false :
    CsvConsumer.detect_stall [JVal.num 100] 5 (1/5) = some false ∧
    CsvConsumer.detect_stall
      [JVal.num 100, JVal.num 120, JVal.num 100, JVal.num 120, JVal.num 100] 5 (1/5) =
      some false := by
  decide

/-- C5 (amended): while the window holds fewer values than the
configured size, `detect_stall` returns `false` — indistinguishable to
its caller from a full, non-stalled window's verdict; the insufficiency
is only logged, never returned as a distinct outcome. -/
theorem c5_amended_underfull_no_distinct_verdict (w : List JVal) (ws : Nat) (thr : ℚ)
    (h : w.length < ws) : CsvConsumer.detect_stall w ws thr = some false := by
  simp [CsvConsumer.detect_stall, h]

/-- C5 (witness): the empty window under capacity 5. -/
theorem c5_amended_witness :
    CsvConsumer.detect_stall [] 5 (1/5) = some false :=
  c5_amended_underfull_no_distinct_verdict [] 5 (1/5) (by decide)

/-- C6: the `deque(maxlen=capacity)` window is FIFO and bounded: pushing
`capacity + k` values from empty leaves exactly the last `capacity`
values in arrival order, and a single push evicts the oldest value
exactly when the window is already at capacity. -/
theorem c6_window_fifo (cap k : Nat) (xs : List JVal) (hcap : 0 < cap)
    (h : xs.length = cap + k) :
    List.foldl (CsvConsumer.pushMax cap) [] xs = xs.drop k ∧
    ∀ (w : List JVal) (x : JVal), w.length ≤ cap →
      CsvConsumer.pushMax cap w x =
        if w.length = cap then w.drop 1 ++ [x] else w ++ [x] := by
  constructor
  · rw [foldl_pushMax_eq cap xs [] (by simp)]
    simp [h]
  · intro w x hw
    by_cases hc : w.length = cap
    · rw [if_pos hc]
      cases w with
      | nil => simp at hc; omega
      | cons y w' =>
        simp only [List.length_cons] at hc
        simp only [CsvConsumer.pushMax, List.length_append, List.length_cons,
          List.length_nil]
        rw [if_pos (by omega)]
        have h1 : w'.length + 1 + (0 + 1) - cap = 1 := by omega
        rw [h1]
        simp
    · rw [if_neg hc]
      simp only [CsvConsumer.pushMax, List.length_append, List.length_cons,
        List.length_nil]
      rw [if_neg (by omega)]

/-- C6 (witness): pushing 7 values through a capacity-5 window keeps the
last five, in order. -/
theorem c6_window_witness :
    List.foldl (CsvConsumer.pushMax 5) []
      [JVal.num 1, JVal.num 2, JVal.num 3, JVal.num 4, JVal.num 5, JVal.num 6,
       JVal.num 7] =
      [JVal.num 3, JVal.num 4, JVal.num 5, JVal.num 6, JVal.num 7] :=
  (c6_window_fifo 5 2
    [JVal.num 1, JVal.num 2, JVal.num 3, JVal.num 4, JVal.num 5, JVal.num 6, JVal.num 7]
    (by norm_num) rfl).1

/-- C7 (counterexample): the first-ever message from `"bob"`, processed
at wall-clock time 5, fires the FrequentMessages alert even though no
previous timestamp existed for this author — the code compares against
a default of 0, so the original "only if a previous timestamp existed"
direction is false.  (The code also uses `time.time()` at processing,
not a timestamp field of the event.) -/
theorem c7_counterexample_first_message_alert :
    (JsonConsumer.process_message ⟨[], []⟩ 5 (some (.obj [("author", JVal.str "bob")]))).2 =
      [JsonConsumer.JOut.frequent (JVal.str "bob")] ∧
    alookup ([] : List (JVal × ℚ)) (JVal.str "bob") = none :=
  ⟨by decide, rfl⟩

/-- C7 (amended): the alert compares the processing wall-clock time with
the author's stored last-seen time, defaulting to 0 when none exists;
hence whenever the clock exceeds the 10-second frame (true for every
realistic epoch time), the alert fires if and only if a previous
timestamp existed for this author and the gap is at most the frame. -/
theorem c7_amended_frequent_iff (s : JsonConsumer.JState) (now : ℚ) (a m : String)
    (h : JsonConsumer.FREQUENT_TIME_FRAME < now) :
    (JsonConsumer.JOut.frequent (JVal.str a) ∈
      (JsonConsumer.process_message s now
        (some (.obj [("author", JVal.str a), ("message", JVal.str m)]))).2) ↔
    (∃ prev, alookup s.last_message_time (JVal.str a) = some prev ∧
      now - prev ≤ JsonConsumer.FREQUENT_TIME_FRAME) := by
  rw [jsonProcess_out]
  rcases hl : alookup s.last_message_time (JVal.str a) with _ | prev
  · simp only [hl, Option.getD_none, List.mem_append, sub_zero]
    constructor
    · rintro (((hm | hm) | hm) | hm) <;> revert hm <;> split_ifs <;>
        simp_all <;> linarith
    · rintro ⟨prev, hp, _⟩
      simp at hp
  · simp only [hl, Option.getD_some, List.mem_append]
    constructor
    · rintro (((hm | hm) | hm) | hm) <;> revert hm <;> split_ifs <;> simp_all
    · rintro ⟨p, hp, hle⟩
      injection hp with hp
      subst hp
      left; left; left
      simp [hle]

/-- C7 (witness): with a last-seen time of 100 for `"bob"`, a message
processed at 103 (3 seconds later) fires the alert and one processed at
115 (15 seconds later) does not. -/
theorem c7_amended_witness :
    (JsonConsumer.JOut.frequent (JVal.str "bob") ∈
      (JsonConsumer.process_message ⟨[(JVal.str "bob", 1)], [(JVal.str "bob", 100)]⟩ 103
        (some (.obj [("author", JVal.str "bob"), ("message", JVal.str "hi")]))).2) ∧
    ¬ (JsonConsumer.JOut.frequent (JVal.str "bob") ∈
      (JsonConsumer.process_message ⟨[(JVal.str "bob", 1)], [(JVal.str "bob", 100)]⟩ 115
        (some (.obj [("author", JVal.str "bob"), ("message", JVal.str "hi")]))).2) := by
  constructor
  · exact (c7_amended_frequent_iff ⟨[(JVal.str "bob", 1)], [(JVal.str "bob", 100)]⟩ 103
      "bob" "hi" (by norm_num [JsonConsumer.FREQUENT_TIME_FRAME])).mpr
      ⟨100, by decide, by norm_num [JsonConsumer.FREQUENT_TIME_FRAME]⟩
  · intro h
    rcases (c7_amended_frequent_iff ⟨[(JVal.str "bob", 1)], [(JVal.str "bob", 100)]⟩ 115
      "bob" "hi" (by norm_num [JsonConsumer.FREQUENT_TIME_FRAME])).mp h with ⟨prev, hp, hle⟩
    simp [alookup] at hp
    subst hp
    norm_num [JsonConsumer.FREQUENT_TIME_FRAME] at hle

/-- C8: a malformed payload (not valid JSON) leaves the state of either
consumer unchanged and produces exactly one dropped-event report, and a
malformed payload followed by any payload yields the drop report
followed by exactly the outputs the second payload alone would produce
from the same state. -/
theorem c8_malformed_payload_isolation :
    (∀ (s : JsonConsumer.JState) (now : ℚ),
       JsonConsumer.process_message s now none = (s, [JsonConsumer.JOut.invalidJson])) ∧
    (∀ (w : List JVal) (ws : Nat) (thr : ℚ) (df : List (JVal × JVal)),
       CsvConsumer.process_message none w ws thr df = (w, df, [CsvConsumer.CsvOut.jsonError])) ∧
    (∀ (s : JsonConsumer.JState) (n1 n2 : ℚ) (p : Option JTop),
       JsonConsumer.json_run [(n1, none), (n2, p)] s =
         ((JsonConsumer.process_message s n2 p).1,
          JsonConsumer.JOut.invalidJson :: (JsonConsumer.process_message s n2 p).2)) := by
  refine ⟨fun _ _ => rfl, fun _ _ _ _ => rfl, fun s n1 n2 p => ?_⟩
  simp [JsonConsumer.json_run, JsonConsumer.process_message]

/-- C9: every accepted chat event increments its author's count by
exactly one, and the VolumeThreshold alert is emitted exactly when the
post-increment count reaches the message threshold — a level-triggered
`>=` check, so it keeps firing on every later message too. -/
theorem c9_volume_level_triggered (s : JsonConsumer.JState) (now : ℚ) (a m : String) :
    countOf (JsonConsumer.process_message s now
        (some (.obj [("author", JVal.str a), ("message", JVal.str m)]))).1.author_counts
        (JVal.str a) =
      countOf s.author_counts (JVal.str a) + 1 ∧
    (JsonConsumer.JOut.volume (JVal.str a) (countOf s.author_counts (JVal.str a) + 1) ∈
      (JsonConsumer.process_message s now
        (some (.obj [("author", JVal.str a), ("message", JVal.str m)]))).2 ↔
      JsonConsumer.MESSAGE_THRESHOLD ≤ countOf s.author_counts (JVal.str a) + 1) := by
  have hb : countOf (bumpCount s.author_counts (JVal.str a)) (JVal.str a) =
      countOf s.author_counts (JVal.str a) + 1 := by
    simp [countOf, alookup_bumpCount_self]
  rw [jsonProcess_out]
  refine ⟨hb, ?_⟩
  rw [List.mem_append, List.mem_append, List.mem_append, hb]
  constructor
  · rintro (((hm | hm) | hm) | hm) <;> revert hm <;> split_ifs <;> simp_all
  · intro hle
    left; right
    simp [hle]

/-- C10: the temperature consumer never mutates the caller's DataFrame —
over any message sequence the loop's DataFrame stays what it started as
— and on an accepted message processed with the (forever empty) caller
DataFrame, the alert check runs on exactly the single current reading. -/
theorem c10_dataframe_frame (ws : Nat) (thr : ℚ) :
    (∀ (msgs : List (Option JTop)) (w : List JVal) (df : List (JVal × JVal)),
      (CsvConsumer.csv_fold ws thr msgs (w, df)).2 = df) ∧
    (∀ (fields : List (String × JVal)) (w : List JVal) (temp ts : JVal),
      pyGet fields "temperature" = some temp → pyGet fields "timestamp" = some ts →
      (CsvConsumer.process_message (some (.obj fields)) w ws thr []).2.2 =
        (match CsvConsumer.detect_stall (CsvConsumer.pushMax ws w temp) ws thr with
         | none => [CsvConsumer.CsvOut.procError]
         | some st =>
             (if st then [CsvConsumer.CsvOut.stall ts] else []) ++
             (match CsvConsumer.check_temperature_alerts [(ts, temp)] with
              | none => [CsvConsumer.CsvOut.procError]
              | some alerts => alerts))) := by
  refine ⟨csv_fold_df_unchanged ws thr, ?_⟩
  intro fields w temp ts hT hS
  rcases hD : CsvConsumer.detect_stall (CsvConsumer.pushMax ws w temp) ws thr with _ | st <;>
    simp only [CsvConsumer.process_message, hT, hS, List.nil_append, hD]
  rcases hA : CsvConsumer.check_temperature_alerts [(ts, temp)] with _ | alerts <;>
    simp only [hA]

/-- C10 (witness): a three-message run leaves the DataFrame empty, and a
concrete accepted reading is checked against a one-row frame. -/
theorem c10_dataframe_witness :
    (CsvConsumer.csv_fold 5 (1/5)
      [some (.obj [("timestamp", .str "t1"), ("temperature", .num 70)])] ([], [])).2 = [] ∧
    (CsvConsumer.process_message
      (some (.obj [("temperature", JVal.num 70), ("timestamp", JVal.str "t")]))
      [] 5 (1/5) []).2.2 =
      (match CsvConsumer.detect_stall (CsvConsumer.pushMax 5 [] (JVal.num 70)) 5 (1/5) with
       | none => [CsvConsumer.CsvOut.procError]
       | some st =>
           (if st then [CsvConsumer.CsvOut.stall (JVal.str "t")] else []) ++
           (match CsvConsumer.check_temperature_alerts [(JVal.str "t", JVal.num 70)] with
            | none => [CsvConsumer.CsvOut.procError]
            | some alerts => alerts)) :=
  ⟨(c10_dataframe_frame 5 (1/5)).1
     [some (.obj [("timestamp", .str "t1"), ("temperature", .num 70)])] [] [],
   (c10_dataframe_frame 5 (1/5)).2
     [("temperature", JVal.num 70), ("timestamp", JVal.str "t")] [] (JVal.num 70)
     (JVal.str "t") (by decide) (by decide)⟩
